import Mathlib

/-!
Shallow embedding of the agent core of the Meta-Startup repository:
the Message schema (src/metagpt/schema.py), the Role state machine
(src/metagpt/roles/role.py) and the human review gate
(src/metagpt/actions/ask_review.py), together with theorems checking the
specification claims about them.

String primitives (lowercasing, digit tests, substring containment) are
re-implemented structurally over the character list of the string so that
every definition reduces inside the kernel.  Lowercasing and the
review-gate token tests cover the ASCII fragment, which is observationally
equivalent to Python lower for every gate token; the digit and int models
cover a Unicode fragment that includes the superscript and Arabic-Indic
digits, the characters on which Python str.isdigit and int() disagree and
the decision-parse error path turns. -/

/-- Modelled from the spec: the reserved broadcast wildcard for send_to
(spec section 3: a reserved wildcard value means all current and future
roles); metagpt/const.py, which defines MESSAGE_ROUTE_TO_ALL, is not under
src. -/
def MESSAGE_ROUTE_TO_ALL : String := "<all>"

/-- Modelled from the spec: the sentinel cause for messages constructed
without a cause (spec section 3: defaults to a sentinel user-requirement
identifier, the root of all causal chains); the UserRequirement class
imported at src/metagpt/schema.py line 223 is not under src. -/
def USER_REQUIREMENT : String := "metagpt.actions.add_requirement.UserRequirement"

/-- Modelled from the spec: metagpt.utils.common.any_to_str (not under
src).  On a string it returns the string unchanged; on a class or object it
renders the dotted type name.  In this embedding every routing value is
already the rendered string, so the function is the identity. -/
def any_to_str (s : String) : String := s

/-- A Python routing value as received by the send_to validator and setter:
either a single scalar (a string, or a class or object already rendered to
its string name), or a collection of such values. -/
inductive StrOrSet where
  | scalar (s : String)
  | coll (xs : List String)
  deriving DecidableEq, Repr

/-- Python truthiness of a routing value: the empty string and the empty
collection are falsy (src/metagpt/schema.py line 233 tests
send_to if send_to else ...). -/
def pyTruthy : StrOrSet → Bool
  | .scalar s => !(s == "")
  | .coll xs => !xs.isEmpty

/-- Modelled from the spec: metagpt.utils.common.any_to_str_set (not under
src).  A collection maps each element through any_to_str; a scalar becomes
a singleton.  Python returns a set of strings; it is modelled as a list —
which strings are members, and whether the result is empty, is all the
claims depend on. -/
def any_to_str_set : StrOrSet → List String
  | .scalar s => [any_to_str s]
  | .coll xs => xs.map any_to_str

/-- Message.check_id (src/metagpt/schema.py lines 198-201): an absent id is
replaced by a fresh uuid4 hex, supplied here as the freshId argument. -/
def check_id (freshId id : String) : String := if id = "" then freshId else id

/-- Message.check_cause_by (src/metagpt/schema.py lines 220-223): an empty
cause defaults to the UserRequirement sentinel; the result is rendered by
any_to_str. -/
def check_cause_by (cause_by : String) : String :=
  any_to_str (if cause_by = "" then USER_REQUIREMENT else cause_by)

/-- Message.check_sent_from (src/metagpt/schema.py lines 225-228): a falsy
value becomes the empty string; the result is rendered by any_to_str. -/
def check_sent_from (sent_from : String) : String :=
  any_to_str (if sent_from = "" then "" else sent_from)

/-- Message.check_send_to (src/metagpt/schema.py lines 230-233): a falsy
value defaults to the broadcast wildcard before set normalisation. -/
def check_send_to (send_to : StrOrSet) : List String :=
  if pyTruthy send_to then any_to_str_set send_to
  else any_to_str_set (.coll [MESSAGE_ROUTE_TO_ALL])

/-- Message (src/metagpt/schema.py lines 187-196).  instruct_content, an
optional pydantic payload, is modelled as an optional opaque string;
send_to, a Python set of strings, is modelled as a list. -/
structure Message where
  id : String
  content : String
  instruct_content : Option String
  role : String
  cause_by : String
  sent_from : String
  send_to : List String
  deriving DecidableEq, Repr

/-- Message construction (src/metagpt/schema.py lines 190-196, 253-255):
every field runs its before-validator, defaults included (the fields carry
validate_default=True); freshId stands for the uuid4 hex minted when id is
absent.  Callers pass the pydantic defaults explicitly where Python omits a
keyword: id and sent_from default to the empty string, role to user,
cause_by to the empty string and send_to to coll [MESSAGE_ROUTE_TO_ALL]. -/
def mkMessage (freshId id content : String) (instruct_content : Option String)
    (role cause_by sent_from : String) (send_to : StrOrSet) : Message :=
  { id := check_id freshId id
    content := content
    instruct_content := instruct_content
    role := role
    cause_by := check_cause_by cause_by
    sent_from := check_sent_from sent_from
    send_to := check_send_to send_to }

/-- Message setattr for the key send_to (src/metagpt/schema.py lines
263-264): the assigned value is normalised by any_to_str_set, with no
emptiness guard and no re-defaulting. -/
def Message.set_send_to (m : Message) (v : StrOrSet) : Message :=
  { m with send_to := any_to_str_set v }

/-- Message setattr for the key cause_by (src/metagpt/schema.py lines
259-260). -/
def Message.set_cause_by (m : Message) (v : String) : Message :=
  { m with cause_by := any_to_str v }

/-- Message setattr for the key sent_from (src/metagpt/schema.py lines
261-262). -/
def Message.set_sent_from (m : Message) (v : String) : Message :=
  { m with sent_from := any_to_str v }

/-- Modelled from the spec: the Memory store — an ordered, append-only list
of Messages (spec sections 3 and 4.1); metagpt/memory is not under src. -/
abbrev Memory := List Message

/-- Modelled from the spec: Memory.get, the full ordered snapshot (spec
section 4.1). -/
def Memory.get (mem : Memory) : List Message := mem

/-- Modelled from the spec: Memory.add — a no-op if an identical Message is
already present by value, else an append (spec section 4.1). -/
def Memory.add (mem : Memory) (m : Message) : Memory :=
  if m ∈ mem then mem else mem ++ [m]

/-- Modelled from the spec: Memory.get_by_actions — the ordered subsequence
of Messages whose cause_by belongs to the supplied set of Action kinds
(spec section 4.1). -/
def Memory.get_by_actions (mem : Memory) (kinds : List String) : List Message :=
  mem.filter (fun m => decide (m.cause_by ∈ kinds))

/-- Modelled from the spec: Memory.remember, called by Role.observe at
src/metagpt/roles/role.py line 220 — the observed Messages not already
present in this memory (spec section 3: news is the subset of newly
observed Messages not already present in the private memory). -/
def Memory.remember (mem : Memory) (observed : List Message) : List Message :=
  observed.filter (fun m => decide (m ∉ mem))

/-- Modelled from the spec: the Environment bus (spec sections 3 and 4.3);
metagpt/environment is not under src (src/metagpt/roles/role.py line 16
even comments its import out).  Only the global memory is needed by the
Role code under verification. -/
structure Environment where
  memory : Memory
  deriving DecidableEq, Repr

/-- Modelled from the spec: Environment.publish_message appends the message
to the global Memory (spec section 4.3). -/
def Environment.publish_message (e : Environment) (msg : Message) : Environment :=
  { memory := Memory.add e.memory msg }

/-- The Role together with its RoleContext (src/metagpt/roles/role.py lines
67-75 and 95-113): name and profile from the RoleSetting; the ordered
action list and the parallel state-name list built by init_actions; the
current state index and the derived todo; the private memory, watch set and
last news.  An Action is represented by the rendered identifier of its
runtime type (what any_to_str makes of type(action)), which is all the core
under verification reads from it; goal, constraints, desc and the LLM
handle only feed prompt text for the external decision procedure. -/
structure RoleState where
  name : String
  profile : String
  actions : List String
  states : List String
  state : Nat
  todo : Option String
  memory : Memory
  watch : List String
  news : List Message
  env : Option Environment
  deriving DecidableEq, Repr

/-- Role.set_state (src/metagpt/roles/role.py lines 136-140): stores the
index and derives todo from the action list at the stored index; the Python
indexing that would raise out of range is modelled by get?. -/
def set_state (r : RoleState) (s : Nat) : RoleState :=
  { r with state := s, todo := r.actions.get? s }

/-- The Python character-level digit property (the test str.isdigit applies
per character), modelled on a Unicode fragment that contains all digit
characters the claims turn on: the ASCII decimal digits 0-9, the
superscript digits ¹ ² ³ (code points 185, 178, 179 — Numeric_Type Digit
but not Decimal, so int() rejects them) and the Arabic-Indic decimal
digits ٠-٩ (code points 1632-1641 — Numeric_Type Decimal with the obvious
values).  Every character outside the fragment is treated as a non-digit,
which agrees with Python for every character that is not one of the
remaining exotic Unicode digits. -/
def pyCharIsDigit (c : Char) : Bool :=
  (48 ≤ c.toNat && c.toNat ≤ 57)
  || (c.toNat = 178 || c.toNat = 179 || c.toNat = 185)
  || (1632 ≤ c.toNat && c.toNat ≤ 1641)

/-- The decimal value int() assigns to a character of the fragment: some
value for Numeric_Type Decimal characters, none for digit characters such
as the superscript ² that int() rejects with ValueError. -/
def pyCharDecimal (c : Char) : Option Nat :=
  if 48 ≤ c.toNat && c.toNat ≤ 57 then some (c.toNat - 48)
  else if 1632 ≤ c.toNat && c.toNat ≤ 1641 then some (c.toNat - 1632)
  else none

/-- Python str.isdigit: nonempty and every character has the digit property
(the empty string is not a digit string). -/
def pyIsDigit (s : String) : Bool := !s.data.isEmpty && s.data.all pyCharIsDigit

/-- Python int() on a string whose characters carry the digit property (the
only strings the think guard lets through to int): the base-10 value built
from the characters' decimal values, or none — modelling the ValueError —
when the string is empty or some character has no decimal value. -/
def pyIntDigits (s : String) : Option Nat :=
  if s.data.isEmpty then none
  else
    s.data.foldl
      (fun acc c =>
        match acc, pyCharDecimal c with
        | some n, some d => some (10 * n + d)
        | _, _ => none)
      (some 0)

/-- Role.think (src/metagpt/roles/role.py lines 177-191): a single action
fixes state 0 without consulting the decision procedure; otherwise resp is
the text the external decision procedure returned for the prompt.  The
source tests not resp.isdigit() or int(resp) not in range(len(states))
with Python short-circuit evaluation, so int() runs only when isdigit
holds: a non-digit response, or a parsed value outside the index range of
the state list, is replaced by 0 before set_state runs, while a
digit-class response that int() cannot parse (for example the superscript
²) raises ValueError out of think — modelled by none. -/
def think (r : RoleState) (resp : String) : Option RoleState :=
  if r.actions.length = 1 then
    some (set_state r 0)
  else if pyIsDigit resp = true then
    match pyIntDigits resp with
    | none => none
    | some v =>
        if v < r.states.length then some (set_state r v)
        else some (set_state r 0)
  else
    some (set_state r 0)

/-- The result an external Action run returns to Role.act: plain text, or
an ActionOutput carrying content together with a structured payload
(src/metagpt/roles/role.py lines 200-206). -/
inductive ActionResult where
  | text (s : String)
  | output (content : String) (instruct : String)
  deriving DecidableEq, Repr

/-- type(todo) rendered by any_to_str: an Action value is represented by
its runtime-type identifier already, and type(None) renders as the
NoneType name. -/
def typeName : Option String → String
  | some a => a
  | none => "builtins.NoneType"

/-- Role.act (src/metagpt/roles/role.py lines 193-210): the external todo
Action has produced response; a Message is built with role = profile and
cause_by = type(todo), every other routing field left to the Message
defaults, appended to the private memory and returned.  freshId is the
uuid the Message id validator mints. -/
def act (r : RoleState) (freshId : String) (response : ActionResult) :
    RoleState × Message :=
  let msg :=
    match response with
    | .output c ic =>
        mkMessage freshId "" c (some ic) r.profile (typeName r.todo) ""
          (.coll [MESSAGE_ROUTE_TO_ALL])
    | .text c =>
        mkMessage freshId "" c none r.profile (typeName r.todo) ""
          (.coll [MESSAGE_ROUTE_TO_ALL])
  ({ r with memory := Memory.add r.memory msg }, msg)

/-- Role.recv (src/metagpt/roles/role.py lines 243-249): drop the message
if it is already present in the private memory, else add it. -/
def recv (r : RoleState) (m : Message) : RoleState :=
  if m ∈ Memory.get r.memory then r
  else { r with memory := Memory.add r.memory m }

/-- Role.observe (src/metagpt/roles/role.py lines 212-228): without an
environment, zero news; otherwise news is the watched part of the
environment memory not already remembered privately, every environment
message is folded into the private memory through recv, and the number of
news is returned. -/
def observe (r : RoleState) : RoleState × Nat :=
  match r.env with
  | none => (r, 0)
  | some e =>
    let env_msgs := Memory.get e.memory
    let observed := Memory.get_by_actions e.memory r.watch
    let news := Memory.remember r.memory observed
    (env_msgs.foldl recv { r with news := news }, news.length)

/-- Role.publish_message (src/metagpt/roles/role.py lines 230-235): without
an environment nothing is published; otherwise the message goes to the
environment bus. -/
def publish_message (r : RoleState) (msg : Message) : RoleState :=
  match r.env with
  | none => r
  | some e => { r with env := some (e.publish_message msg) }

/-- Role.react (src/metagpt/roles/role.py lines 237-241): think, then act;
a think that raises aborts the turn (none propagates). -/
def react (r : RoleState) (resp freshId : String) (result : ActionResult) :
    Option (RoleState × Message) :=
  match think r resp with
  | none => none
  | some r1 => some (act r1 freshId result)

/-- Role.run with message=None (src/metagpt/roles/role.py lines 258-275,
the else branch): observe; with zero news return nothing and go idle,
otherwise react and publish the response.  resp and result stand for the
external decision-procedure text and Action result consumed if the role
does react; the explicit-message branch of run (lines 260-266) merely folds
the given message in through recv before reacting and no claim concerns
it.  A raising react aborts the turn (none); the zero-news branch returns
before react and can never raise. -/
def run_noMessage (r : RoleState) (resp freshId : String) (result : ActionResult) :
    Option (RoleState × Option Message) :=
  if (observe r).2 = 0 then some ((observe r).1, none)
  else
    match react (observe r).1 resp freshId result with
    | none => none
    | some q => some (publish_message q.1 q.2, some q.2)

/-- ReviewConst.TASK_REVIEW_TRIGGER (src/metagpt/actions/ask_review.py line
9). -/
def TASK_REVIEW_TRIGGER : String := "task"

/-- ReviewConst.CONTINUE_WORD (src/metagpt/actions/ask_review.py line
11). -/
def CONTINUE_WORD : List String := ["confirm", "continue", "c", "yes", "y"]

/-- ReviewConst.EXIT_WORD (src/metagpt/actions/ask_review.py line 13). -/
def EXIT_WORD : List String := ["exit"]

/-- Python str.lower on the ASCII fragment, character by character. -/
def pyLower (s : String) : String := ⟨s.data.map Char.toLower⟩

/-- Whether the first list is a leading segment of the second (helper for
the Python substring test). -/
def startsWithL : List Char → List Char → Bool
  | [], _ => true
  | _ :: _, [] => false
  | a :: as, b :: bs => a == b && startsWithL as bs

/-- Whether pat occurs contiguously inside the second list. -/
def containsSub (pat : List Char) : List Char → Bool
  | [] => startsWithL pat []
  | c :: t => startsWithL pat (c :: t) || containsSub pat t

/-- The Python in operator on strings: strContainsSub s pat is true when
pat occurs as a substring of s. -/
def strContainsSub (s pat : String) : Bool := containsSub pat.data s.data

/-- The guarded most-recent-cause access in AskReview.run
(src/metagpt/actions/ask_review.py line 36): an empty context, or a falsy
cause_by on the last message, renders as the empty string. -/
def latest_action (context : List Message) : String :=
  match context.getLast? with
  | none => ""
  | some m => if m.cause_by = "" then "" else m.cause_by

/-- The context-dependent first line of the review prompt
(src/metagpt/actions/ask_review.py lines 42-47); the remaining lines are
the constant ReviewConst instruction texts, independent of the context, and
no claim concerns their wording. -/
def askReview_prompt (context : List Message) (trigger : String) : String :=
  "This is a <" ++ trigger ++ "> review. Please review output from "
    ++ latest_action context ++ "\n"

/-- The review gate outcome: procExit models the exit() call that
terminates the whole process (src/metagpt/actions/ask_review.py line 52),
reply models the normal return of the raw input together with the
confirmation flag (lines 56-58). -/
inductive ReviewResult where
  | procExit
  | reply (rsp : String) (confirmed : Bool)
  deriving DecidableEq, Repr

/-- AskReview.run (src/metagpt/actions/ask_review.py lines 26-58) with the
blocking operator input supplied as rsp: returns the prompt it printed and
the outcome.  The optional plan argument only adds log lines and is
omitted. -/
def askReview_run (context : List Message) (trigger rsp : String) :
    String × ReviewResult :=
  (askReview_prompt context trigger,
    if pyLower rsp ∈ EXIT_WORD then ReviewResult.procExit
    else ReviewResult.reply rsp
      (decide (pyLower rsp ∈ CONTINUE_WORD)
        || strContainsSub (pyLower rsp) (CONTINUE_WORD.headD "")))

/-- A broadcast user message with cause kind K, as published to an
environment. -/
def msgK : Message :=
  mkMessage "id-k" "" "x" none "user" "K" "" (.coll [MESSAGE_ROUTE_TO_ALL])

/-- An environment whose global memory holds msgK only. -/
def envK : Environment := { memory := [msgK] }

/-- A role attached to envK that watches kind W only and starts with an
empty private memory: observing yields zero news yet absorbs msgK. -/
def roleA : RoleState :=
  { name := "A", profile := "PM", actions := ["ActX"], states := ["0. ActX"],
    state := 0, todo := some "ActX", memory := [], watch := ["W"], news := [],
    env := some envK }

/-- The same role with msgK already remembered: observing is a true
no-op. -/
def roleB : RoleState := { roleA with memory := [msgK] }

/-- A named role for the act claims. -/
def roleAlice : RoleState :=
  { name := "alice", profile := "ProductManager",
    actions := ["metagpt.actions.WritePRD"], states := ["0. WritePRD"],
    state := 0, todo := some "metagpt.actions.WritePRD", memory := [],
    watch := [], news := [], env := none }

/-- A three-action role for the think claims. -/
def role3 : RoleState :=
  { name := "B", profile := "Engineer", actions := ["A0", "A1", "A2"],
    states := ["0. A0", "1. A1", "2. A2"], state := 0, todo := none,
    memory := [], watch := [], news := [], env := none }

/-- A four-action role, large enough that the Arabic-Indic digit for three
parses into the valid index range. -/
def role4 : RoleState :=
  { name := "D", profile := "QA", actions := ["B0", "B1", "B2", "B3"],
    states := ["0. B0", "1. B1", "2. B2", "3. B3"], state := 0, todo := none,
    memory := [], watch := [], news := [], env := none }

/-- A single-action role. -/
def role1 : RoleState :=
  { name := "C", profile := "Architect", actions := ["OnlyAct"],
    states := ["0. OnlyAct"], state := 0, todo := none, memory := [],
    watch := [], news := [], env := none }

/-- A message already present in a memory, for the recv idempotence
witness. -/
def msgDup : Message :=
  mkMessage "id-d" "" "hello" none "user" "K" "" (.coll [MESSAGE_ROUTE_TO_ALL])

/-- A role whose private memory already holds msgDup. -/
def roleDup : RoleState := { roleAlice with memory := [msgDup] }

/-- A message built with an explicitly empty send_to value. -/
def msgEmptyRoute : Message :=
  mkMessage "id8" "" "hello" none "user" "" "" (.coll [])

/-- recv never shrinks the private memory. -/
theorem recv_memory_length_le (r : RoleState) (m : Message) :
    r.memory.length ≤ (recv r m).memory.length := by
  by_cases hm : m ∈ r.memory
  · simp [recv, Memory.get, hm]
  · simp [recv, Memory.get, Memory.add, hm]

/-- Folding recv over a message list never shrinks the private memory. -/
theorem foldl_recv_length_le (msgs : List Message) (r : RoleState) :
    r.memory.length ≤ (msgs.foldl recv r).memory.length := by
  induction msgs generalizing r with
  | nil => exact Nat.le_refl _
  | cons m t ih => exact le_trans (recv_memory_length_le r m) (ih (recv r m))

/-- Folding recv over a message list keeps the private memory size exactly
when every folded message was already present. -/
theorem foldl_recv_length_eq_iff (msgs : List Message) (r : RoleState) :
    ((msgs.foldl recv r).memory.length = r.memory.length)
      ↔ ∀ m ∈ msgs, m ∈ r.memory := by
  induction msgs generalizing r with
  | nil => simp
  | cons m t ih =>
    by_cases hm : m ∈ r.memory
    · have hr : recv r m = r := by simp [recv, Memory.get, hm]
      rw [List.foldl_cons, hr, ih r]
      simp [hm]
    · have hr : (recv r m).memory = r.memory ++ [m] := by
        simp [recv, Memory.get, Memory.add, hm]
      constructor
      · intro hlen
        exfalso
        have hle := foldl_recv_length_le t (recv r m)
        rw [List.foldl_cons] at hlen
        rw [hr] at hle
        simp [List.length_append] at hle
        omega
      · intro hall
        exact absurd (hall m (List.mem_cons_self m t)) hm

/-- C1 (amended): Role.run with no explicit message and zero observed news
returns normally (it cannot raise on this branch), carrying no Message and
the observed role state; the private memory size is unchanged exactly when
every environment message was already present in the private memory —
otherwise observe absorbs the unseen environment messages (watched or not)
even though no news was reported. -/
theorem run_zero_news_returns_none (r : RoleState) (e : Environment)
    (resp fid : String) (res : ActionResult)
    (henv : r.env = some e) (h0 : (observe r).2 = 0) :
    run_noMessage r resp fid res = some ((observe r).1, none)
    ∧ ((observe r).1.memory.length = r.memory.length
        ↔ ∀ m ∈ e.memory, m ∈ r.memory) := by
  have h1 : run_noMessage r resp fid res = some ((observe r).1, none) := by
    simp [run_noMessage, h0]
  have hobs : (observe r).1
      = (Memory.get e.memory).foldl recv
          { r with news := Memory.remember r.memory (Memory.get_by_actions e.memory r.watch) } := by
    simp [observe, henv]
  refine ⟨h1, ?_⟩
  rw [hobs]
  exact foldl_recv_length_eq_iff (Memory.get e.memory) _

/-- C1 witness: a role whose environment message is already remembered has
zero news and an unchanged memory size. -/
theorem run_zero_news_returns_none_witness :
    run_noMessage roleB "0" "f" (ActionResult.text "ok")
      = some ((observe roleB).1, none)
    ∧ (observe roleB).1.memory.length = roleB.memory.length := by
  have h := run_zero_news_returns_none roleB envK "0" "f" (ActionResult.text "ok")
    rfl (by decide)
  exact ⟨h.1, h.2.mpr (by decide)⟩

/-- C1 counterexample: roleA observes zero news (msgK carries cause K while
the watch set is W only), run returns normally with no Message, yet the
private memory grew from 0 to 1 because observe absorbed msgK. -/
theorem run_zero_news_cx :
    (observe roleA).2 = 0
    ∧ run_noMessage roleA "0" "f" (ActionResult.text "ok")
        = some ((observe roleA).1, none)
    ∧ roleA.memory.length = 0
    ∧ (observe roleA).1.memory.length = 1 := by
  decide

/-- C2 (amended): act wraps the Action result into a Message whose role is
the profile, whose cause_by is the rendered runtime type of the executed
todo Action, whose sent_from is left at the empty default (unattributed)
and whose send_to is the broadcast default; the Message is appended to the
private memory before act returns it. -/
theorem act_message_fields (r : RoleState) (fid : String) (res : ActionResult) :
    (act r fid res).2.role = r.profile
    ∧ (act r fid res).2.cause_by = check_cause_by (typeName r.todo)
    ∧ (act r fid res).2.sent_from = ""
    ∧ (act r fid res).2.send_to = [MESSAGE_ROUTE_TO_ALL]
    ∧ (act r fid res).1.memory = Memory.add r.memory (act r fid res).2 := by
  cases res <;>
    simp [act, mkMessage, check_sent_from, check_send_to, pyTruthy,
      any_to_str_set, any_to_str]

/-- C2 witness: the theorem evaluated at a concrete role and result. -/
theorem act_message_fields_witness :
    (act roleAlice "f2" (ActionResult.text "ok")).2.role = roleAlice.profile
    ∧ (act roleAlice "f2" (ActionResult.text "ok")).2.sent_from = "" :=
  ⟨(act_message_fields roleAlice "f2" (ActionResult.text "ok")).1,
   (act_message_fields roleAlice "f2" (ActionResult.text "ok")).2.2.1⟩

/-- C2 counterexample: for the role named alice, the Message act builds
carries sent_from equal to the empty string, not the role name —
src/metagpt/roles/role.py line 206 passes no sent_from, and the Message
default is empty. -/
theorem act_sent_from_cx :
    (act roleAlice "f2" (ActionResult.text "ok")).2.sent_from ≠ roleAlice.name
    ∧ roleAlice.name = "alice" := by decide

/-- C3 (amended): the review gate terminates the whole process exactly when
the lowercased operator input is literally one of the exit tokens; an input
that merely contains an exit token does not terminate, and every non-exit
input returns normally with the raw input and the confirmation flag. -/
theorem askReview_exit_iff (ctx : List Message) (trigger rsp : String) :
    ((askReview_run ctx trigger rsp).2 = ReviewResult.procExit
       ↔ pyLower rsp ∈ EXIT_WORD)
    ∧ (pyLower rsp ∉ EXIT_WORD →
        (askReview_run ctx trigger rsp).2
          = ReviewResult.reply rsp
              (decide (pyLower rsp ∈ CONTINUE_WORD)
                || strContainsSub (pyLower rsp) "confirm")) := by
  by_cases hx : pyLower rsp ∈ EXIT_WORD
  · simp [askReview_run, hx]
  · constructor
    · simp [askReview_run, hx]
    · intro _
      simp only [askReview_run, if_neg hx]
      rfl

/-- C3 witness: the exact token exits, a free-text input returns
normally. -/
theorem askReview_exit_iff_witness :
    (askReview_run [] "task" "exit").2 = ReviewResult.procExit
    ∧ (askReview_run [] "task" "stop").2 = ReviewResult.reply "stop" false := by
  constructor
  · exact (askReview_exit_iff [] "task" "exit").1.mpr (by decide)
  · exact ((askReview_exit_iff [] "task" "stop").2 (by decide)).trans (by decide)

/-- C3 counterexample: the input exit now contains the exit token but the
gate returns normally instead of terminating the process. -/
theorem askReview_exit_substring_cx :
    strContainsSub (pyLower "exit now") "exit" = true
    ∧ (askReview_run [] "task" "exit now").2
        = ReviewResult.reply "exit now" false := by decide

/-- C4 (code bug): the isdigit guard in think is not a sound guard for
int().  The decision response ² passes the digit test yet carries no
decimal value, so int() raises ValueError inside think — the code raises
where the claim (and the design the spec states in sections 4.2 and 7a)
promises a silent default to state 0; and the Arabic-Indic decimal ٣
parses to 3 and, being in range of the four-action role, sets the state
although the response is not a plain decimal literal.  On plain decimal
responses the lenient behaviour does hold: 7 against three states defaults
to 0 and 2 is accepted. -/
theorem think_digit_guard_bug :
    pyIsDigit "²" = true
    ∧ pyIntDigits "²" = none
    ∧ think role3 "²" = none
    ∧ pyIsDigit "٣" = true
    ∧ pyIntDigits "٣" = some 3
    ∧ think role4 "٣" = some (set_state role4 3)
    ∧ think role3 "7" = some (set_state role3 0)
    ∧ think role3 "2" = some (set_state role3 2) := by decide

/-- C5 (amended): for every non-exit input the gate returns the raw input
verbatim, with confirmed true exactly when the lowercased input is one of
the continue tokens or contains confirm as a substring. -/
theorem askReview_confirm_classification (ctx : List Message) (trigger rsp : String)
    (hx : pyLower rsp ∉ EXIT_WORD) :
    (askReview_run ctx trigger rsp).2
      = ReviewResult.reply rsp
          (decide (pyLower rsp ∈ CONTINUE_WORD)
            || strContainsSub (pyLower rsp) "confirm") := by
  simp only [askReview_run, if_neg hx]
  rfl

/-- C5 witness: the three operator inputs the specification enumerates. -/
theorem askReview_confirm_witness :
    (askReview_run [] "task" "y").2 = ReviewResult.reply "y" true
    ∧ (askReview_run [] "task" "change task 2 to add logging").2
        = ReviewResult.reply "change task 2 to add logging" false
    ∧ (askReview_run [] "task" "confirm but change task 3").2
        = ReviewResult.reply "confirm but change task 3" true := by
  refine ⟨?_, ?_, ?_⟩
  · exact (askReview_confirm_classification [] "task" "y" (by decide)).trans
      (by decide)
  · exact (askReview_confirm_classification [] "task"
      "change task 2 to add logging" (by decide)).trans (by decide)
  · exact (askReview_confirm_classification [] "task"
      "confirm but change task 3" (by decide)).trans (by decide)

/-- C5 counterexample: the uppercase input Y is not one of the continue
tokens and does not contain confirm, yet the gate classifies it as
confirmed because classification lowercases the input first. -/
theorem askReview_confirm_case_cx :
    "Y" ∉ CONTINUE_WORD
    ∧ strContainsSub "Y" "confirm" = false
    ∧ (askReview_run [] "task" "Y").2 = ReviewResult.reply "Y" true := by decide

/-- C6: a role with exactly one action always completes think with state 0
(it can never raise on this branch), and the decision-procedure response is
irrelevant to the result. -/
theorem think_single_action (r : RoleState) (resp resp2 : String)
    (h : r.actions.length = 1) :
    think r resp = some (set_state r 0)
    ∧ (set_state r 0).state = 0
    ∧ think r resp = think r resp2 := by
  refine ⟨?_, rfl, ?_⟩
  · simp [think, h]
  · simp [think, h]

/-- C6 witness: the single-action role selects state 0 on any response. -/
theorem think_single_action_witness :
    think role1 "7" = some (set_state role1 0)
    ∧ (set_state role1 0).state = 0
    ∧ think role1 "7" = think role1 "banana" :=
  think_single_action role1 "7" "banana" (by decide)

/-- C7: re-adding a Message already present in the private memory through
recv leaves the role, and in particular the ordered memory content,
unchanged. -/
theorem recv_duplicate_noop (r : RoleState) (m : Message)
    (h : m ∈ Memory.get r.memory) : recv r m = r := by
  simp [recv, h]

/-- C7 witness: re-receiving the already-present msgDup is a no-op. -/
theorem recv_duplicate_noop_witness : recv roleDup msgDup = roleDup :=
  recv_duplicate_noop roleDup msgDup (by decide)

/-- C8 (amended): send_to is never empty at construction — a missing or
falsy value defaults to the broadcast wildcard and any truthy value
normalises to a non-empty set — but field assignment normalises the value
without re-defaulting, so send_to is guaranteed to stay non-empty only for
truthy assigned values. -/
theorem send_to_nonempty_construction (freshId id content role cb sf : String)
    (ic : Option String) (st : StrOrSet) (m : Message) (v : StrOrSet)
    (hv : pyTruthy v = true) :
    (mkMessage freshId id content ic role cb sf st).send_to ≠ []
    ∧ (m.set_send_to v).send_to ≠ [] := by
  constructor
  · show check_send_to st ≠ []
    cases st with
    | scalar s =>
      by_cases hs : s = ""
      · simp [check_send_to, pyTruthy, any_to_str_set, hs]
      · simp [check_send_to, pyTruthy, any_to_str_set, hs]
    | coll xs =>
      cases xs with
      | nil => simp [check_send_to, pyTruthy, any_to_str_set]
      | cons a t => simp [check_send_to, pyTruthy, any_to_str_set]
  · cases v with
    | scalar s => simp [Message.set_send_to, any_to_str_set]
    | coll xs =>
      cases xs with
      | nil => simp [pyTruthy] at hv
      | cons a t => simp [Message.set_send_to, any_to_str_set]

/-- C8 witness: an empty construction value defaults to the wildcard and a
truthy assignment keeps send_to non-empty. -/
theorem send_to_nonempty_witness :
    (mkMessage "i8" "" "c" none "user" "" "" (StrOrSet.coll [])).send_to ≠ []
    ∧ ((mkMessage "i8" "" "c" none "user" "" "" (StrOrSet.coll [])).set_send_to
        (StrOrSet.scalar "alice")).send_to ≠ [] :=
  send_to_nonempty_construction "i8" "" "c" "user" "" "" none (StrOrSet.coll [])
    (mkMessage "i8" "" "c" none "user" "" "" (StrOrSet.coll []))
    (StrOrSet.scalar "alice") (by decide)

/-- C8 counterexample: construction with an empty send_to defaults to the
wildcard, but a subsequent assignment of an empty collection leaves send_to
empty — the non-emptiness invariant is not preserved by assignment. -/
theorem send_to_assign_empty_cx :
    msgEmptyRoute.send_to = [MESSAGE_ROUTE_TO_ALL]
    ∧ (msgEmptyRoute.set_send_to (StrOrSet.coll [])).send_to = [] := by decide

/-- Every completed think is a set_state at an index that is valid for the
action list (whatever the decision-procedure response was). -/
theorem think_some_exists (r : RoleState) (resp : String) (r1 : RoleState)
    (h0 : 0 < r.actions.length) (hw : r.states.length = r.actions.length)
    (heq : think r resp = some r1) :
    ∃ n, n < r.actions.length ∧ r1 = set_state r n := by
  unfold think at heq
  by_cases h1 : r.actions.length = 1
  · rw [if_pos h1] at heq
    refine ⟨0, h0, ?_⟩
    simpa using heq.symm
  · rw [if_neg h1] at heq
    by_cases hd : pyIsDigit resp = true
    · rw [if_pos hd] at heq
      cases hv : pyIntDigits resp with
      | none =>
        rw [hv] at heq
        simp at heq
      | some v =>
        rw [hv] at heq
        have heq2 : (if v < r.states.length then some (set_state r v)
            else some (set_state r 0)) = some r1 := heq
        by_cases hr : v < r.states.length
        · rw [if_pos hr] at heq2
          refine ⟨v, by omega, ?_⟩
          simpa using heq2.symm
        · rw [if_neg hr] at heq2
          refine ⟨0, h0, ?_⟩
          simpa using heq2.symm
    · rw [if_neg hd] at heq
      refine ⟨0, h0, ?_⟩
      simpa using heq.symm

/-- C9: set_state with a valid index stores the index and derives todo as
exactly the action stored at that index; consequently every completed think
leaves state and todo in agreement. -/
theorem set_state_todo_coherent (r : RoleState) (i : Nat) (resp : String)
    (h : i < r.actions.length) (hw : r.states.length = r.actions.length) :
    ((set_state r i).state = i
      ∧ (set_state r i).todo = r.actions.get? i
      ∧ ((set_state r i).todo).isSome = true)
    ∧ (∀ r1, think r resp = some r1 →
        (r1.todo = r.actions.get? r1.state ∧ r1.todo.isSome = true)) := by
  have h0 : 0 < r.actions.length := Nat.lt_of_le_of_lt (Nat.zero_le i) h
  have key : ∀ n, n < r.actions.length →
      ((set_state r n).state = n
        ∧ (set_state r n).todo = r.actions.get? n
        ∧ ((set_state r n).todo).isSome = true) := by
    intro n hn
    refine ⟨rfl, rfl, ?_⟩
    simp [set_state, List.getElem?_eq_getElem hn]
  refine ⟨key i h, ?_⟩
  intro r1 heq
  obtain ⟨n, hn, rfl⟩ := think_some_exists r resp r1 h0 hw heq
  exact ⟨(key n hn).2.1, (key n hn).2.2⟩

/-- C9 witness: the theorem at a three-action role, index 1 and response
1, whose think completes at set_state role3 1. -/
theorem set_state_todo_coherent_witness :
    ((set_state role3 1).state = 1
      ∧ (set_state role3 1).todo = role3.actions.get? 1
      ∧ ((set_state role3 1).todo).isSome = true)
    ∧ ((set_state role3 1).todo = role3.actions.get? (set_state role3 1).state
      ∧ ((set_state role3 1).todo).isSome = true) := by
  have h := set_state_todo_coherent role3 1 "1" (by decide) (by decide)
  exact ⟨h.1, h.2 (set_state role3 1) (by decide)⟩

/-- C10: with an empty context the guarded last-element access renders the
most recent cause as the empty string, the printed prompt is the usual one
for that rendering, and the gate classifies the operator input exactly as
it would with any other context — the access never fails. -/
theorem askReview_empty_context_safe (trigger rsp : String) (ctx : List Message) :
    latest_action [] = ""
    ∧ (askReview_run [] trigger rsp).1 = askReview_prompt [] trigger
    ∧ (askReview_run [] trigger rsp).2 = (askReview_run ctx trigger rsp).2 :=
  ⟨rfl, rfl, rfl⟩

/-- C10 witness: the empty-context gate handles the input the same way as a
gate with context. -/
theorem askReview_empty_context_safe_witness :
    latest_action [] = ""
    ∧ (askReview_run [] "task" "y").2 = (askReview_run [msgK] "task" "y").2 :=
  ⟨(askReview_empty_context_safe "task" "y" [msgK]).1,
   (askReview_empty_context_safe "task" "y" [msgK]).2.2⟩
